import Mathlib

/-!
Shallow embedding of `Telegram/SourceFiles/calls/calls_group_settings.cpp`
(the group-call settings dialog of Telegram Desktop) and proofs about it.

The dialog is UI glue around a group voice call: it builds the widgets,
wires click handlers, and issues remote requests.  External collaborators
(the RPC transport, the clipboard, timers, the audio tester) are opaque
services; the model records their observable effects explicitly: requests
sent are accumulated in a list, the clipboard is a string, toasts are
counted, animation starts are logged.
-/

set_option autoImplicit false

namespace CallsModel

/-- A remote request issued through `session().api().request(...)`.
`toggleGroupCallSettings` carries the call input, whether the
`f_join_muted` flag is set, and the boolean value sent;
`exportChatInvite` carries the channel input. -/
inductive Request where
  | toggleGroupCallSettings (callInput : Nat) (fJoinMuted : Bool) (joinMuted : Bool)
  | exportChatInvite (channelInput : Nat)
  deriving DecidableEq, Repr

/-- The channel's current real call object (`Data::GroupCall`, reached via
`channel->call()`).  `input` stands for the `MTPInputGroupCall` returned by
`call->input()`; the fields `joinMuted` / `canChangeJoinMuted` mirror the
accessors of the same names, and `setJoinMutedLocally` below mirrors the
local setter. -/
structure GroupCallData where
  id : Nat
  input : Nat
  joinMuted : Bool
  canChangeJoinMuted : Bool
  deriving DecidableEq, Repr

/-- Modelled from the spec: `Data::GroupCall::setJoinMutedLocally` lives in
`data/data_group_call.cpp`, outside the excerpt; per its name and the
spec's description it sets the join-muted value on the call object
locally. -/
def setJoinMutedLocally (c : GroupCallData) (b : Bool) : GroupCallData :=
  { c with joinMuted := b }

/-- The channel (`ChannelData`) as seen by this file: its current call (may
be absent), the permission predicates used here, the username / invite
link used by `lookupLink`, and `input` standing for the `MTPInputChannel`
of `channel->input`. -/
structure ChannelData where
  call : Option GroupCallData
  canManageCall : Bool
  hasUsername : Bool
  username : String
  inviteLink : String
  canHaveInviteLink : Bool
  input : Nat
  deriving DecidableEq, Repr

/-- `SaveCallJoinMuted(channel, callId, joinMuted)` from the source: checks
the guard (`!call || call->id() != callId || !channel->canManageCall()
|| !call->canChangeJoinMuted() || call->joinMuted() == joinMuted`) and on
failure returns with nothing done; otherwise sets join-muted locally and
sends one `MTPphone_ToggleGroupCallSettings` request with the
`f_join_muted` flag.  The result is the channel afterwards and the list of
requests sent. -/
def SaveCallJoinMuted (channel : ChannelData) (callId : Nat) (joinMuted : Bool) :
    ChannelData × List Request :=
  match channel.call with
  | none => (channel, [])
  | some call =>
      if call.id ≠ callId
          ∨ channel.canManageCall = false
          ∨ call.canChangeJoinMuted = false
          ∨ call.joinMuted = joinMuted then
        (channel, [])
      else
        ({ channel with call := some (setJoinMutedLocally call joinMuted) },
         [Request.toggleGroupCallSettings call.input true joinMuted])

/-- C1: `SaveCallJoinMuted` is a guarded remote update: when the channel
has no current call, or the call id differs, or the user cannot manage the
call, or join-muted cannot be changed, or the value is already the
requested one, nothing changes and nothing is sent; otherwise the call's
join-muted value is set locally and exactly one
`ToggleGroupCallSettings` request with the `f_join_muted` flag and the
requested value is sent. -/
theorem saveCallJoinMuted_guarded (channel : ChannelData) (callId : Nat) (jm : Bool) :
    (channel.call = none →
      SaveCallJoinMuted channel callId jm = (channel, []))
    ∧ (∀ call, channel.call = some call →
        ((call.id ≠ callId
            ∨ channel.canManageCall = false
            ∨ call.canChangeJoinMuted = false
            ∨ call.joinMuted = jm) →
          SaveCallJoinMuted channel callId jm = (channel, []))
        ∧ (call.id = callId → channel.canManageCall = true →
            call.canChangeJoinMuted = true → call.joinMuted ≠ jm →
          SaveCallJoinMuted channel callId jm =
            ({ channel with call := some { call with joinMuted := jm } },
             [Request.toggleGroupCallSettings call.input true jm]))) := by
  refine ⟨?_, ?_⟩
  · intro h
    simp [SaveCallJoinMuted, h]
  · intro call h
    refine ⟨?_, ?_⟩
    · intro hguard
      simp only [SaveCallJoinMuted, h]
      rw [if_pos hguard]
    · intro hid hman hchg hne
      simp only [SaveCallJoinMuted, h]
      rw [if_neg]
      · simp [setJoinMutedLocally]
      · push_neg
        exact ⟨hid, by simp [hman], by simp [hchg], hne⟩

/-- Witness for C1 at concrete inputs: the guard branch on an absent call
and the sending branch on a matching manageable call. -/
theorem saveCallJoinMuted_guarded_witness :
    (SaveCallJoinMuted
        { call := none, canManageCall := true, hasUsername := false,
          username := "", inviteLink := "", canHaveInviteLink := true,
          input := 7 } 5 true
      = ({ call := none, canManageCall := true, hasUsername := false,
           username := "", inviteLink := "", canHaveInviteLink := true,
           input := 7 }, []))
    ∧ (SaveCallJoinMuted
        { call := some { id := 5, input := 9, joinMuted := false,
                         canChangeJoinMuted := true },
          canManageCall := true, hasUsername := false, username := "",
          inviteLink := "", canHaveInviteLink := true, input := 7 } 5 true
      = ({ call := some { id := 5, input := 9, joinMuted := true,
                          canChangeJoinMuted := true },
           canManageCall := true, hasUsername := false, username := "",
           inviteLink := "", canHaveInviteLink := true, input := 7 },
         [Request.toggleGroupCallSettings 9 true true])) := by
  constructor
  · exact (saveCallJoinMuted_guarded
      { call := none, canManageCall := true, hasUsername := false,
        username := "", inviteLink := "", canHaveInviteLink := true,
        input := 7 } 5 true).1 rfl
  · exact ((saveCallJoinMuted_guarded
      { call := some { id := 5, input := 9, joinMuted := false,
                       canChangeJoinMuted := true },
        canManageCall := true, hasUsername := false, username := "",
        inviteLink := "", canHaveInviteLink := true, input := 7 } 5 true).2
      { id := 5, input := 9, joinMuted := false, canChangeJoinMuted := true }
      rfl).2 rfl rfl rfl (by decide)

/-- The values `GroupCallSettingsBox` captures when the dialog is built:
`real := channel->call()`, `id := call->id()`,
`goodReal := (real && real->id() == id)`,
`joinMuted := goodReal ? real->joinMuted() : false`,
`canChangeJoinMuted := goodReal && real->canChangeJoinMuted()`, and the
mute-joined checkbox is created (initially checked `joinMuted`) iff
`channel->canManageCall() && canChangeJoinMuted`. -/
structure BoxSetup where
  id : Nat
  joinMuted : Bool
  canChangeJoinMuted : Bool
  hasCheckbox : Bool
  deriving DecidableEq, Repr

/-- The capture step of `GroupCallSettingsBox` for a channel and the
dialog call's id. -/
def groupCallSettingsSetup (channel : ChannelData) (callId : Nat) : BoxSetup :=
  match channel.call with
  | none =>
      { id := callId, joinMuted := false, canChangeJoinMuted := false,
        hasCheckbox := false }
  | some real =>
      if real.id = callId then
        { id := callId
          joinMuted := real.joinMuted
          canChangeJoinMuted := real.canChangeJoinMuted
          hasCheckbox := channel.canManageCall && real.canChangeJoinMuted }
      else
        { id := callId, joinMuted := false, canChangeJoinMuted := false,
          hasCheckbox := false }

/-- The `boxClosing` handler: with the captured values and the checkbox's
checked state at close time (`none` when the checkbox was never created),
it calls `SaveCallJoinMuted` exactly when
`canChangeJoinMuted && muteJoined && muteJoined->checked() != joinMuted`,
and otherwise does nothing.  The result is the channel afterwards and the
requests sent. -/
def onBoxClosing (stp : BoxSetup) (muteJoined : Option Bool)
    (channel : ChannelData) : ChannelData × List Request :=
  match muteJoined with
  | none => (channel, [])
  | some checked =>
      if stp.canChangeJoinMuted = true ∧ checked ≠ stp.joinMuted then
        SaveCallJoinMuted channel stp.id checked
      else (channel, [])

/-- If the setup reports `canChangeJoinMuted`, the channel's call exists,
has the dialog's id, can change join-muted, and its join-muted value is
the captured one. -/
lemma setup_canChange_spec (channel : ChannelData) (callId : Nat)
    (h : (groupCallSettingsSetup channel callId).canChangeJoinMuted = true) :
    ∃ real, channel.call = some real ∧ real.id = callId
      ∧ real.canChangeJoinMuted = true
      ∧ real.joinMuted = (groupCallSettingsSetup channel callId).joinMuted := by
  cases hc : channel.call with
  | none => simp [groupCallSettingsSetup, hc] at h
  | some real =>
      by_cases hid : real.id = callId
      · exact ⟨real, rfl, hid, by simpa [groupCallSettingsSetup, hc, hid] using h,
          by simp [groupCallSettingsSetup, hc, hid]⟩
      · simp [groupCallSettingsSetup, hc, hid] at h

/-- If the setup created the checkbox, the user can manage the call and
the setup reports `canChangeJoinMuted`. -/
lemma setup_hasCheckbox_spec (channel : ChannelData) (callId : Nat)
    (h : (groupCallSettingsSetup channel callId).hasCheckbox = true) :
    channel.canManageCall = true
      ∧ (groupCallSettingsSetup channel callId).canChangeJoinMuted = true := by
  cases hc : channel.call with
  | none => simp [groupCallSettingsSetup, hc] at h
  | some real =>
      by_cases hid : real.id = callId
      · simp only [groupCallSettingsSetup, hc, hid, if_pos, Bool.and_eq_true] at h ⊢
        exact ⟨h.1, h.2⟩
      · simp [groupCallSettingsSetup, hc, hid] at h

/-- The setup's `id` field is the dialog call's id. -/
lemma setup_id (channel : ChannelData) (callId : Nat) :
    (groupCallSettingsSetup channel callId).id = callId := by
  cases hc : channel.call with
  | none => simp [groupCallSettingsSetup, hc]
  | some real =>
      by_cases hid : real.id = callId <;> simp [groupCallSettingsSetup, hc, hid]

/-- C2: with the channel unchanged between opening and closing, closing
the dialog persists the join-muted setting (i.e. a request is sent) iff
the setting was changeable at creation, the checkbox exists, and its
checked state differs from the captured `joinMuted`; in every other case
closing performs no save and sends no request, and in the positive case
the call is updated and exactly one `ToggleGroupCallSettings` request is
sent. -/
theorem boxClosing_saves_iff (channel : ChannelData) (callId : Nat)
    (mj : Option Bool)
    (hmj : mj.isSome = (groupCallSettingsSetup channel callId).hasCheckbox) :
    ((onBoxClosing (groupCallSettingsSetup channel callId) mj channel).2 ≠ []
      ↔ ((groupCallSettingsSetup channel callId).canChangeJoinMuted = true
          ∧ ∃ c, mj = some c
              ∧ c ≠ (groupCallSettingsSetup channel callId).joinMuted))
    ∧ (∀ c, mj = some c
        → (groupCallSettingsSetup channel callId).canChangeJoinMuted = true
        → c ≠ (groupCallSettingsSetup channel callId).joinMuted
        → ∃ real, channel.call = some real
            ∧ onBoxClosing (groupCallSettingsSetup channel callId) mj channel
              = ({ channel with call := some { real with joinMuted := c } },
                 [Request.toggleGroupCallSettings real.input true c])) := by
  have hpos : ∀ c, mj = some c
      → (groupCallSettingsSetup channel callId).canChangeJoinMuted = true
      → c ≠ (groupCallSettingsSetup channel callId).joinMuted
      → ∃ real, channel.call = some real
          ∧ onBoxClosing (groupCallSettingsSetup channel callId) mj channel
            = ({ channel with call := some { real with joinMuted := c } },
               [Request.toggleGroupCallSettings real.input true c]) := by
    intro c hc hchg hne
    obtain ⟨real, hreal, hid, hrchg, hrjm⟩ := setup_canChange_spec channel callId hchg
    have hcb : (groupCallSettingsSetup channel callId).hasCheckbox = true := by
      rw [← hmj, hc]; rfl
    have hman := (setup_hasCheckbox_spec channel callId hcb).1
    refine ⟨real, hreal, ?_⟩
    have hsave := ((saveCallJoinMuted_guarded channel
        (groupCallSettingsSetup channel callId).id c).2 real hreal).2
      (by rw [setup_id]; exact hid) hman hrchg (by rw [hrjm]; exact hne.symm)
    simp only [onBoxClosing, hc]
    rw [if_pos ⟨hchg, hne⟩, hsave]
  refine ⟨⟨?_, ?_⟩, hpos⟩
  · intro hne
    cases hc : mj with
    | none => rw [hc] at hne; simp [onBoxClosing] at hne
    | some c =>
        rw [hc] at hne
        by_cases hcond : (groupCallSettingsSetup channel callId).canChangeJoinMuted
            = true ∧ c ≠ (groupCallSettingsSetup channel callId).joinMuted
        · exact ⟨hcond.1, c, rfl, hcond.2⟩
        · simp only [onBoxClosing] at hne
          rw [if_neg hcond] at hne
          simp at hne
  · rintro ⟨hchg, c, hc, hne⟩
    obtain ⟨real, hreal, heq⟩ := hpos c hc hchg hne
    rw [heq]
    simp

/-- Witness for C2 at concrete inputs: a manageable matching call with the
checkbox toggled sends one request. -/
theorem boxClosing_saves_iff_witness :
    ∃ real,
      ({ call := some { id := 5, input := 9, joinMuted := false,
                        canChangeJoinMuted := true },
         canManageCall := true, hasUsername := false, username := "",
         inviteLink := "", canHaveInviteLink := true,
         input := 7 } : ChannelData).call = some real
      ∧ onBoxClosing
          (groupCallSettingsSetup
            { call := some { id := 5, input := 9, joinMuted := false,
                             canChangeJoinMuted := true },
              canManageCall := true, hasUsername := false, username := "",
              inviteLink := "", canHaveInviteLink := true, input := 7 } 5)
          (some true)
          { call := some { id := 5, input := 9, joinMuted := false,
                           canChangeJoinMuted := true },
            canManageCall := true, hasUsername := false, username := "",
            inviteLink := "", canHaveInviteLink := true, input := 7 }
        = ({ ({ call := some { id := 5, input := 9, joinMuted := false,
                               canChangeJoinMuted := true },
                canManageCall := true, hasUsername := false, username := "",
                inviteLink := "", canHaveInviteLink := true,
                input := 7 } : ChannelData)
               with call := some { real with joinMuted := true } },
           [Request.toggleGroupCallSettings real.input true true]) :=
  (boxClosing_saves_iff
      { call := some { id := 5, input := 9, joinMuted := false,
                       canChangeJoinMuted := true },
        canManageCall := true, hasUsername := false, username := "",
        inviteLink := "", canHaveInviteLink := true, input := 7 } 5
      (some true) (by decide)).2 true rfl (by decide) (by decide)

/-- C10: stale-call guard.  When the channel's current call is absent or
its id differs from the dialog's call id, the captured `joinMuted` is
`false`, `canChangeJoinMuted` is `false`, the mute-joined checkbox is not
created, and closing the dialog (with any checkbox state consistent with
that, i.e. none) changes nothing and sends no request. -/
theorem staleCall_never_saves (channel : ChannelData) (callId : Nat)
    (hstale : channel.call = none
      ∨ ∀ real, channel.call = some real → real.id ≠ callId) :
    (groupCallSettingsSetup channel callId).joinMuted = false
    ∧ (groupCallSettingsSetup channel callId).canChangeJoinMuted = false
    ∧ (groupCallSettingsSetup channel callId).hasCheckbox = false
    ∧ ∀ (mj : Option Bool) (channelNow : ChannelData),
        mj.isSome = (groupCallSettingsSetup channel callId).hasCheckbox →
        onBoxClosing (groupCallSettingsSetup channel callId) mj channelNow
          = (channelNow, []) := by
  have hsetup : groupCallSettingsSetup channel callId
      = { id := callId, joinMuted := false, canChangeJoinMuted := false,
          hasCheckbox := false } := by
    cases hc : channel.call with
    | none => simp [groupCallSettingsSetup, hc]
    | some real =>
        rcases hstale with h | h
        · rw [hc] at h; cases h
        · have hid := h real hc
          simp [groupCallSettingsSetup, hc, hid]
  refine ⟨by rw [hsetup], by rw [hsetup], by rw [hsetup], ?_⟩
  intro mj channelNow hmj
  rw [hsetup] at hmj ⊢
  cases mj with
  | none => rfl
  | some c => simp at hmj

/-- Witness for C10: a dialog whose id does not match the channel's
current call. -/
theorem staleCall_never_saves_witness :
    (groupCallSettingsSetup
        { call := some { id := 4, input := 9, joinMuted := true,
                         canChangeJoinMuted := true },
          canManageCall := true, hasUsername := false, username := "",
          inviteLink := "", canHaveInviteLink := true,
          input := 7 } 5).joinMuted = false
    ∧ (groupCallSettingsSetup
        { call := some { id := 4, input := 9, joinMuted := true,
                         canChangeJoinMuted := true },
          canManageCall := true, hasUsername := false, username := "",
          inviteLink := "", canHaveInviteLink := true,
          input := 7 } 5).canChangeJoinMuted = false
    ∧ (groupCallSettingsSetup
        { call := some { id := 4, input := 9, joinMuted := true,
                         canChangeJoinMuted := true },
          canManageCall := true, hasUsername := false, username := "",
          inviteLink := "", canHaveInviteLink := true,
          input := 7 } 5).hasCheckbox = false
    ∧ ∀ (mj : Option Bool) (channelNow : ChannelData),
        mj.isSome = (groupCallSettingsSetup
          { call := some { id := 4, input := 9, joinMuted := true,
                           canChangeJoinMuted := true },
            canManageCall := true, hasUsername := false, username := "",
            inviteLink := "", canHaveInviteLink := true,
            input := 7 } 5).hasCheckbox →
        onBoxClosing (groupCallSettingsSetup
            { call := some { id := 4, input := 9, joinMuted := true,
                             canChangeJoinMuted := true },
              canManageCall := true, hasUsername := false, username := "",
              inviteLink := "", canHaveInviteLink := true,
              input := 7 } 5) mj channelNow
          = (channelNow, []) :=
  staleCall_never_saves
    { call := some { id := 4, input := 9, joinMuted := true,
                     canChangeJoinMuted := true },
      canManageCall := true, hasUsername := false, username := "",
      inviteLink := "", canHaveInviteLink := true, input := 7 } 5
    (Or.inr (by intro real h hid; cases h; simp at hid))

/-- Modelled from the spec: `Main::Session::createInternalLinkFull` lives
outside the excerpt (an "excluded external collaborator"); it builds the
public t.me link for a username, modelled as prefixing the application
domain to the username. -/
def createInternalLinkFull (username : String) : String :=
  "https://t.me/" ++ username

/-- The `lookupLink` closure of `GroupCallSettingsBox`: the internal link
of the channel's username when it has one, the stored invite link
otherwise. -/
def lookupLink (channel : ChannelData) : String :=
  if channel.hasUsername = true then createInternalLinkFull channel.username
  else channel.inviteLink

/-- C9: `lookupLink` prefers the public link: with a username it returns
the internal link built from the username — and not the stored invite
link, whenever the two differ — and it returns the stored invite link
only when the channel has no username. -/
theorem lookupLink_prefers_username (channel : ChannelData) :
    (channel.hasUsername = true →
      lookupLink channel = createInternalLinkFull channel.username
      ∧ (channel.inviteLink ≠ createInternalLinkFull channel.username →
          lookupLink channel ≠ channel.inviteLink))
    ∧ (channel.hasUsername = false →
      lookupLink channel = channel.inviteLink) := by
  constructor
  · intro h
    refine ⟨by simp [lookupLink, h], ?_⟩
    intro hne
    simp only [lookupLink, h, if_pos]
    exact fun heq => hne heq.symm
  · intro h
    simp [lookupLink, h]

/-- Witness for C9: a channel with a username takes the internal link, a
channel without takes the invite link. -/
theorem lookupLink_prefers_username_witness :
    (lookupLink
        { call := none, canManageCall := false, hasUsername := true,
          username := "abc", inviteLink := "https://t.me/joinchat/x",
          canHaveInviteLink := true, input := 7 }
      = createInternalLinkFull "abc"
      ∧ lookupLink
        { call := none, canManageCall := false, hasUsername := true,
          username := "abc", inviteLink := "https://t.me/joinchat/x",
          canHaveInviteLink := true, input := 7 }
        ≠ "https://t.me/joinchat/x")
    ∧ lookupLink
        { call := none, canManageCall := false, hasUsername := false,
          username := "abc", inviteLink := "https://t.me/joinchat/x",
          canHaveInviteLink := true, input := 7 }
      = "https://t.me/joinchat/x" := by
  constructor
  · have h := (lookupLink_prefers_username
      { call := none, canManageCall := false, hasUsername := true,
        username := "abc", inviteLink := "https://t.me/joinchat/x",
        canHaveInviteLink := true, input := 7 }).1 rfl
    exact ⟨h.1, h.2 (by decide)⟩
  · exact (lookupLink_prefers_username
      { call := none, canManageCall := false, hasUsername := false,
        username := "abc", inviteLink := "https://t.me/joinchat/x",
        canHaveInviteLink := true, input := 7 }).2 rfl

/-- Observable state of the invite-link sharing flow: the channel, the
clipboard text (`QGuiApplication::clipboard()`), the number of toasts
shown so far, the `generatingLink` flag of the box `State`, and the
requests sent so far. -/
structure ShareWorld where
  channel : ChannelData
  clipboard : String
  toastCount : Nat
  generatingLink : Bool
  requests : List Request
  deriving DecidableEq, Repr

/-- The `copyLink` closure: looks up the link; on an empty link it returns
`false` with nothing done; otherwise it puts the link on the clipboard,
shows the "link copied" toast only when the box is still alive
(`if (weakBox)`), and returns `true`. -/
def copyLink (boxAlive : Bool) (w : ShareWorld) : Bool × ShareWorld :=
  let link := lookupLink w.channel
  if link.isEmpty = true then
    (false, w)
  else
    let w1 := { w with clipboard := link }
    let w2 := if boxAlive = true then { w1 with toastCount := w1.toastCount + 1 }
              else w1
    (true, w2)

/-- The share button's click handler: tries `copyLink`; if that failed and
no link generation is in progress, it sets `generatingLink` and sends one
`MTPmessages_ExportChatInvite` request. -/
def onShareClick (boxAlive : Bool) (w : ShareWorld) : ShareWorld :=
  let step := copyLink boxAlive w
  if step.1 = false ∧ step.2.generatingLink = false then
    { step.2 with
        generatingLink := true,
        requests := step.2.requests
          ++ [Request.exportChatInvite step.2.channel.input] }
  else step.2

/-- The result type of the `ExportChatInvite` request
(`MTPExportedChatInvite`). -/
inductive ExportedChatInvite where
  | chatInviteExported (link : String)
  | chatInviteEmpty
  deriving DecidableEq, Repr

/-- The `.done` handler of the `ExportChatInvite` request: when the result
has type `chatInviteExported` it stores the returned link on the channel
(`setInviteLink`) and calls `copyLink` again; any other result type is
ignored. -/
def onExportChatInviteDone (boxAlive : Bool) (result : ExportedChatInvite)
    (w : ShareWorld) : ShareWorld :=
  match result with
  | .chatInviteExported link =>
      (copyLink boxAlive { w with channel := { w.channel with inviteLink := link } }).2
  | .chatInviteEmpty => w

/-- `copyLink` never touches the channel, the `generatingLink` flag or the
requests already sent. -/
lemma copyLink_frame (boxAlive : Bool) (w : ShareWorld) :
    (copyLink boxAlive w).2.channel = w.channel
    ∧ (copyLink boxAlive w).2.generatingLink = w.generatingLink
    ∧ (copyLink boxAlive w).2.requests = w.requests := by
  by_cases h : (lookupLink w.channel).isEmpty = true
  · simp [copyLink, h]
  · by_cases ha : boxAlive = true <;> simp [copyLink, h, ha]

/-- C4: `copyLink` returns `false` and changes nothing (in particular not
the clipboard) when the looked-up link is empty; on a non-empty link it
returns `true`, sets the clipboard to that link, and shows the toast
exactly when the box is still alive. -/
theorem copyLink_spec (boxAlive : Bool) (w : ShareWorld) :
    ((lookupLink w.channel).isEmpty = true →
      copyLink boxAlive w = (false, w))
    ∧ ((lookupLink w.channel).isEmpty = false →
      (copyLink boxAlive w).1 = true
      ∧ (copyLink boxAlive w).2.clipboard = lookupLink w.channel
      ∧ (copyLink boxAlive w).2.toastCount
          = (if boxAlive = true then w.toastCount + 1 else w.toastCount)) := by
  constructor
  · intro h
    simp [copyLink, h]
  · intro h
    by_cases ha : boxAlive = true <;> simp [copyLink, h, ha]

/-- Witness for C4 at concrete inputs: an empty invite link on a
username-less channel is not copied; a channel with a username gets its
public link copied with one toast. -/
theorem copyLink_spec_witness :
    copyLink true
      { channel := { call := none, canManageCall := false,
                     hasUsername := false, username := "", inviteLink := "",
                     canHaveInviteLink := true, input := 7 },
        clipboard := "old", toastCount := 0, generatingLink := false,
        requests := [] }
      = (false,
         { channel := { call := none, canManageCall := false,
                        hasUsername := false, username := "",
                        inviteLink := "", canHaveInviteLink := true,
                        input := 7 },
           clipboard := "old", toastCount := 0, generatingLink := false,
           requests := [] })
    ∧ ((copyLink true
        { channel := { call := none, canManageCall := false,
                       hasUsername := true, username := "abc",
                       inviteLink := "", canHaveInviteLink := true,
                       input := 7 },
          clipboard := "old", toastCount := 0, generatingLink := false,
          requests := [] }).1 = true
      ∧ (copyLink true
        { channel := { call := none, canManageCall := false,
                       hasUsername := true, username := "abc",
                       inviteLink := "", canHaveInviteLink := true,
                       input := 7 },
          clipboard := "old", toastCount := 0, generatingLink := false,
          requests := [] }).2.clipboard
        = lookupLink { call := none, canManageCall := false,
                       hasUsername := true, username := "abc",
                       inviteLink := "", canHaveInviteLink := true,
                       input := 7 }
      ∧ (copyLink true
        { channel := { call := none, canManageCall := false,
                       hasUsername := true, username := "abc",
                       inviteLink := "", canHaveInviteLink := true,
                       input := 7 },
          clipboard := "old", toastCount := 0, generatingLink := false,
          requests := [] }).2.toastCount
        = (if true = true then 0 + 1 else 0)) := by
  constructor
  · exact (copyLink_spec true
      { channel := { call := none, canManageCall := false,
                     hasUsername := false, username := "", inviteLink := "",
                     canHaveInviteLink := true, input := 7 },
        clipboard := "old", toastCount := 0, generatingLink := false,
        requests := [] }).1 (by decide)
  · exact (copyLink_spec true
      { channel := { call := none, canManageCall := false,
                     hasUsername := true, username := "abc",
                     inviteLink := "", canHaveInviteLink := true,
                     input := 7 },
        clipboard := "old", toastCount := 0, generatingLink := false,
        requests := [] }).2 (by decide)

/-- The modelled internal link of a username is never the empty string. -/
lemma createInternalLinkFull_not_empty (u : String) :
    (createInternalLinkFull u).isEmpty = false := by
  rw [Bool.eq_false_iff]
  intro h
  have h2 := (String.isEmpty_iff _).mp h
  have h3 := congrArg String.length h2
  simp [createInternalLinkFull] at h3
  exact absurd h3.1 (by decide)

/-- An empty looked-up link means: no username, and an empty stored
invite link. -/
lemma lookupLink_empty (channel : ChannelData)
    (h : (lookupLink channel).isEmpty = true) :
    channel.hasUsername = false ∧ channel.inviteLink.isEmpty = true := by
  by_cases hu : channel.hasUsername = true
  · rw [lookupLink, if_pos hu, createInternalLinkFull_not_empty] at h
    cases h
  · have hu' : channel.hasUsername = false := by
      cases hb : channel.hasUsername
      · rfl
      · exact absurd hb hu
    rw [lookupLink, if_neg (by rw [hu']; intro hc; cases hc)] at h
    exact ⟨hu', h⟩

/-- A click when the looked-up link is empty and no generation is in
progress sends one `ExportChatInvite` request and sets the flag. -/
lemma onShareClick_sends (alive : Bool) (w : ShareWorld)
    (hempty : (lookupLink w.channel).isEmpty = true)
    (hgen : w.generatingLink = false) :
    onShareClick alive w
      = { w with generatingLink := true,
                 requests := w.requests
                   ++ [Request.exportChatInvite w.channel.input] } := by
  have hcopy := (copyLink_spec alive w).1 hempty
  simp only [onShareClick, hcopy]
  rw [if_pos ⟨trivial, hgen⟩]

/-- A click when a link can be looked up only runs `copyLink`. -/
lemma onShareClick_nonempty (alive : Bool) (w : ShareWorld)
    (h : (lookupLink w.channel).isEmpty = false) :
    onShareClick alive w = (copyLink alive w).2 := by
  have h1 := ((copyLink_spec alive w).2 h).1
  simp only [onShareClick]
  rw [if_neg]
  intro hcond
  rw [h1] at hcond
  exact absurd hcond.1 (by simp)

/-- C3 (amended): on every click of the share button, if a link can be
looked up it is copied and no `ExportChatInvite` request is sent; if no
link exists and no generation is in progress, exactly one
`ExportChatInvite` request is issued, and when its result has type
`chatInviteExported` the channel's invite link is set to the returned
link and — provided the returned link is non-empty — that link is then
copied to the clipboard. -/
theorem shareClick_spec (alive alive2 : Bool) (w : ShareWorld) (link : String) :
    ((lookupLink w.channel).isEmpty = false →
      (onShareClick alive w).requests = w.requests
      ∧ (onShareClick alive w).clipboard = lookupLink w.channel)
    ∧ ((lookupLink w.channel).isEmpty = true → w.generatingLink = false →
      (onShareClick alive w).requests
        = w.requests ++ [Request.exportChatInvite w.channel.input]
      ∧ (onExportChatInviteDone alive2 (.chatInviteExported link)
          (onShareClick alive w)).channel.inviteLink = link
      ∧ (link.isEmpty = false →
          (onExportChatInviteDone alive2 (.chatInviteExported link)
            (onShareClick alive w)).clipboard = link)) := by
  constructor
  · intro h
    rw [onShareClick_nonempty alive w h]
    exact ⟨(copyLink_frame alive w).2.2, ((copyLink_spec alive w).2 h).2.1⟩
  · intro hempty hgen
    rw [onShareClick_sends alive w hempty hgen]
    have hu := (lookupLink_empty w.channel hempty).1
    refine ⟨rfl, ?_, ?_⟩
    · simp only [onExportChatInviteDone]
      rw [(copyLink_frame alive2 _).1]
    · intro hlink
      simp only [onExportChatInviteDone]
      have hlkp : lookupLink
          { call := w.channel.call, canManageCall := w.channel.canManageCall,
            hasUsername := w.channel.hasUsername,
            username := w.channel.username, inviteLink := link,
            canHaveInviteLink := w.channel.canHaveInviteLink,
            input := w.channel.input } = link := by
        rw [lookupLink, if_neg]
        rw [hu]
        intro hc
        cases hc
      have := ((copyLink_spec alive2
        { channel :=
            { call := w.channel.call,
              canManageCall := w.channel.canManageCall,
              hasUsername := w.channel.hasUsername,
              username := w.channel.username, inviteLink := link,
              canHaveInviteLink := w.channel.canHaveInviteLink,
              input := w.channel.input },
          clipboard := w.clipboard, toastCount := w.toastCount,
          generatingLink := true,
          requests := w.requests
            ++ [Request.exportChatInvite w.channel.input] }).2
        (by rw [hlkp]; exact hlink)).2.1
      rw [hlkp] at this
      exact this

/-- Witness for C3 (amended) at concrete inputs: a channel with a public
link copies it without any request; a channel with no link at all sends
one request and copies the freshly exported link. -/
theorem shareClick_spec_witness :
    ((onShareClick true
        { channel := { call := none, canManageCall := false,
                       hasUsername := true, username := "abc",
                       inviteLink := "", canHaveInviteLink := true,
                       input := 7 },
          clipboard := "old", toastCount := 0, generatingLink := false,
          requests := [] }).requests = []
      ∧ (onShareClick true
        { channel := { call := none, canManageCall := false,
                       hasUsername := true, username := "abc",
                       inviteLink := "", canHaveInviteLink := true,
                       input := 7 },
          clipboard := "old", toastCount := 0, generatingLink := false,
          requests := [] }).clipboard
        = lookupLink { call := none, canManageCall := false,
                       hasUsername := true, username := "abc",
                       inviteLink := "", canHaveInviteLink := true,
                       input := 7 })
    ∧ ((onShareClick true
        { channel := { call := none, canManageCall := false,
                       hasUsername := false, username := "",
                       inviteLink := "", canHaveInviteLink := true,
                       input := 7 },
          clipboard := "old", toastCount := 0, generatingLink := false,
          requests := [] }).requests = [] ++ [Request.exportChatInvite 7]
      ∧ (onExportChatInviteDone true
          (.chatInviteExported "https://t.me/joinchat/x")
          (onShareClick true
            { channel := { call := none, canManageCall := false,
                           hasUsername := false, username := "",
                           inviteLink := "", canHaveInviteLink := true,
                           input := 7 },
              clipboard := "old", toastCount := 0, generatingLink := false,
              requests := [] })).channel.inviteLink
        = "https://t.me/joinchat/x"
      ∧ ((String.isEmpty "https://t.me/joinchat/x") = false →
          (onExportChatInviteDone true
            (.chatInviteExported "https://t.me/joinchat/x")
            (onShareClick true
              { channel := { call := none, canManageCall := false,
                             hasUsername := false, username := "",
                             inviteLink := "", canHaveInviteLink := true,
                             input := 7 },
                clipboard := "old", toastCount := 0, generatingLink := false,
                requests := [] })).clipboard
          = "https://t.me/joinchat/x")) := by
  constructor
  · exact (shareClick_spec true true
      { channel := { call := none, canManageCall := false,
                     hasUsername := true, username := "abc",
                     inviteLink := "", canHaveInviteLink := true,
                     input := 7 },
        clipboard := "old", toastCount := 0, generatingLink := false,
        requests := [] } "https://t.me/joinchat/x").1 (by decide)
  · exact (shareClick_spec true true
      { channel := { call := none, canManageCall := false,
                     hasUsername := false, username := "",
                     inviteLink := "", canHaveInviteLink := true,
                     input := 7 },
        clipboard := "old", toastCount := 0, generatingLink := false,
        requests := [] } "https://t.me/joinchat/x").2 (by decide) rfl

/-- C3 as literally stated fails on the code: when the `ExportChatInvite`
result carries an empty exported link, the link is stored on the channel
but `copyLink` refuses to copy the empty string, so the returned link is
not copied to the clipboard. -/
theorem shareClick_empty_export_counterexample :
    (onShareClick true
      { channel := { call := none, canManageCall := false,
                     hasUsername := false, username := "", inviteLink := "",
                     canHaveInviteLink := true, input := 7 },
        clipboard := "old", toastCount := 0, generatingLink := false,
        requests := [] }).requests = [Request.exportChatInvite 7]
    ∧ (onExportChatInviteDone true (.chatInviteExported "")
        (onShareClick true
          { channel := { call := none, canManageCall := false,
                         hasUsername := false, username := "",
                         inviteLink := "", canHaveInviteLink := true,
                         input := 7 },
            clipboard := "old", toastCount := 0, generatingLink := false,
            requests := [] })).channel.inviteLink = ""
    ∧ (onExportChatInviteDone true (.chatInviteExported "")
        (onShareClick true
          { channel := { call := none, canManageCall := false,
                         hasUsername := false, username := "",
                         inviteLink := "", canHaveInviteLink := true,
                         input := 7 },
            clipboard := "old", toastCount := 0, generatingLink := false,
            requests := [] })).clipboard ≠ "" := by
  refine ⟨by decide, by decide, by decide⟩

/-- An event of the sharing flow over one dialog's lifetime: a click of
the share button, or the arrival of an `ExportChatInvite` result (a
request that fails outright produces no event: the excerpt installs no
fail handler). -/
inductive ShareEvent where
  | click (boxAlive : Bool)
  | exportDone (boxAlive : Bool) (result : ExportedChatInvite)
  deriving Repr

/-- One event of the sharing flow applied to the world. -/
def shareStep (w : ShareWorld) (e : ShareEvent) : ShareWorld :=
  match e with
  | .click alive => onShareClick alive w
  | .exportDone alive r => onExportChatInviteDone alive r w

/-- A whole lifetime of sharing events. -/
def runShare (w : ShareWorld) (es : List ShareEvent) : ShareWorld :=
  es.foldl shareStep w

/-- How many of the sent requests are `ExportChatInvite` requests. -/
def countExportRequests (rs : List Request) : Nat :=
  rs.countP fun r => match r with
    | .exportChatInvite _ => true
    | _ => false

/-- The world when the dialog opens: `generatingLink` is initialised to
`false` and no request has been sent. -/
def initShareWorld (channel : ChannelData) (clipboard : String) : ShareWorld :=
  { channel := channel, clipboard := clipboard, toastCount := 0,
    generatingLink := false, requests := [] }

/-- Case analysis of one share-flow step: either the world's requests and
`generatingLink` flag are unchanged, or `generatingLink` goes from
`false` to `true` and exactly one `ExportChatInvite` request is
appended. -/
lemma shareStep_cases (w : ShareWorld) (e : ShareEvent) :
    ((shareStep w e).requests = w.requests
      ∧ (shareStep w e).generatingLink = w.generatingLink)
    ∨ (w.generatingLink = false
      ∧ (shareStep w e).generatingLink = true
      ∧ (shareStep w e).requests
          = w.requests ++ [Request.exportChatInvite w.channel.input]) := by
  cases e with
  | exportDone alive r =>
      cases r with
      | chatInviteExported link =>
          left
          simp only [shareStep, onExportChatInviteDone]
          have h := copyLink_frame alive
            { channel := { w.channel with inviteLink := link },
              clipboard := w.clipboard, toastCount := w.toastCount,
              generatingLink := w.generatingLink, requests := w.requests }
          exact ⟨h.2.2, h.2.1⟩
      | chatInviteEmpty => left; exact ⟨rfl, rfl⟩
  | click alive =>
      simp only [shareStep, onShareClick]
      have hframe := copyLink_frame alive w
      by_cases hcond : (copyLink alive w).1 = false
          ∧ (copyLink alive w).2.generatingLink = false
      · right
        rw [if_pos hcond]
        refine ⟨?_, rfl, ?_⟩
        · rw [← hframe.2.1]; exact hcond.2
        · simp only [hframe.2.2, hframe.1]
      · left
        rw [if_neg hcond]
        exact ⟨hframe.2.2, hframe.2.1⟩

/-- The per-step invariant: the number of `ExportChatInvite` requests sent
so far is bounded by the `generatingLink` flag. -/
lemma shareStep_invariant (w : ShareWorld) (e : ShareEvent)
    (h : countExportRequests w.requests
      ≤ if w.generatingLink = true then 1 else 0) :
    countExportRequests (shareStep w e).requests
      ≤ if (shareStep w e).generatingLink = true then 1 else 0 := by
  rcases shareStep_cases w e with ⟨hr, hg⟩ | ⟨hg0, hg1, hr⟩
  · rw [hr, hg]; exact h
  · rw [hr, hg1, if_pos rfl]
    rw [hg0] at h
    simp only [countExportRequests, List.countP_append] at *
    simp at h ⊢
    exact h

/-- The invariant holds along any run. -/
lemma runShare_invariant (es : List ShareEvent) (w : ShareWorld)
    (h : countExportRequests w.requests
      ≤ if w.generatingLink = true then 1 else 0) :
    countExportRequests (runShare w es).requests
      ≤ if (runShare w es).generatingLink = true then 1 else 0 := by
  induction es generalizing w with
  | nil => exact h
  | cons e es ih =>
      exact ih (shareStep w e) (shareStep_invariant w e h)

/-- C8: once `generatingLink` is `true` it stays `true` through every
later event; a step that sends anything new sets it from `false` to
`true`; and, starting from the freshly opened dialog, no run of clicks
and results ever issues more than one `ExportChatInvite` request. -/
theorem exportChatInvite_at_most_once :
    (∀ (w : ShareWorld) (e : ShareEvent), w.generatingLink = true →
        (shareStep w e).generatingLink = true)
    ∧ (∀ (w : ShareWorld) (e : ShareEvent),
        (shareStep w e).requests ≠ w.requests →
        w.generatingLink = false ∧ (shareStep w e).generatingLink = true)
    ∧ (∀ (channel : ChannelData) (clipboard : String)
        (es : List ShareEvent),
        countExportRequests
          (runShare (initShareWorld channel clipboard) es).requests ≤ 1) := by
  refine ⟨?_, ?_, ?_⟩
  · intro w e hg
    rcases shareStep_cases w e with ⟨_, hgeq⟩ | ⟨_, hg1, _⟩
    · rw [hgeq]; exact hg
    · exact hg1
  · intro w e hne
    rcases shareStep_cases w e with ⟨hr, _⟩ | ⟨hg0, hg1, _⟩
    · exact absurd hr hne
    · exact ⟨hg0, hg1⟩
  · intro channel clipboard es
    have h := runShare_invariant es (initShareWorld channel clipboard)
      (by simp [initShareWorld, countExportRequests])
    exact h.trans (by by_cases hg :
      (runShare (initShareWorld channel clipboard) es).generatingLink = true
      <;> simp [hg])

/-- Witness for C8 at concrete inputs: a click on a linkless channel
issues the one request and flips the flag; a second event preserves the
flag; the two-click run still counts one request. -/
theorem exportChatInvite_at_most_once_witness :
    (shareStep
      (shareStep
        (initShareWorld
          { call := none, canManageCall := false, hasUsername := false,
            username := "", inviteLink := "", canHaveInviteLink := true,
            input := 7 } "old")
        (ShareEvent.click true))
      (ShareEvent.click true)).generatingLink = true
    ∧ ((initShareWorld
          { call := none, canManageCall := false, hasUsername := false,
            username := "", inviteLink := "", canHaveInviteLink := true,
            input := 7 } "old").generatingLink = false
      ∧ (shareStep
          (initShareWorld
            { call := none, canManageCall := false, hasUsername := false,
              username := "", inviteLink := "", canHaveInviteLink := true,
              input := 7 } "old")
          (ShareEvent.click true)).generatingLink = true)
    ∧ countExportRequests
        (runShare
          (initShareWorld
            { call := none, canManageCall := false, hasUsername := false,
              username := "", inviteLink := "", canHaveInviteLink := true,
              input := 7 } "old")
          [ShareEvent.click true, ShareEvent.click true]).requests ≤ 1 := by
  refine ⟨?_, ?_, ?_⟩
  · exact exportChatInvite_at_most_once.1
      (shareStep
        (initShareWorld
          { call := none, canManageCall := false, hasUsername := false,
            username := "", inviteLink := "", canHaveInviteLink := true,
            input := 7 } "old")
        (ShareEvent.click true))
      (ShareEvent.click true) (by decide)
  · exact exportChatInvite_at_most_once.2.1
      (initShareWorld
        { call := none, canManageCall := false, hasUsername := false,
          username := "", inviteLink := "", canHaveInviteLink := true,
          input := 7 } "old")
      (ShareEvent.click true) (by decide)
  · exact exportChatInvite_at_most_once.2.2
      { call := none, canManageCall := false, hasUsername := false,
        username := "", inviteLink := "", canHaveInviteLink := true,
        input := 7 } "old" [ShareEvent.click true, ShareEvent.click true]

/-- Modelled from the spec: the constant `kMicTestUpdateInterval` is
declared in `settings/settings_calls.h`, outside the excerpt; the timer
machinery is an opaque service and the claims use the constant only
symbolically, so its concrete value is irrelevant here. -/
def kMicTestUpdateInterval : Nat := 50

/-- Modelled from the spec: the constant `kMicTestAnimationDuration` is
declared in `settings/settings_calls.h`, outside the excerpt; used only
symbolically. -/
def kMicTestAnimationDuration : Nat := 200

/-- The recurring timers registered while building the dialog: line 98 of
the source registers exactly one, `levelUpdateTimer.callEach(
kMicTestUpdateInterval)`. -/
def boxRecurringTimerIntervals : List Nat := [kMicTestUpdateInterval]

/-- One animation started on the level meter
(`micLevelAnimation.start(callback, from, to, duration)`): the displayed
value moves from `fromLevel` to `toLevel` over `duration`. -/
structure AnimationStart where
  fromLevel : Rat
  toLevel : Rat
  duration : Nat
  deriving DecidableEq, Repr

/-- The level-meter state the timer callback works on: the last polled
level (`state->micLevel`, initialised to `0.`) and the log of animations
started so far. -/
structure MicUiState where
  micLevel : Rat
  startedAnimations : List AnimationStart
  deriving DecidableEq, Repr

/-- The state when the dialog opens: `float micLevel = 0.;` and no
animation started yet. -/
def initMicUiState : MicUiState :=
  { micLevel := 0, startedAnimations := [] }

/-- The `levelUpdateTimer` callback, with `polled` the value the audio
tester's `getAndResetLevel()` returns on this firing: remembers the old
level, stores the new one, and starts an animation from the old to the
new level of duration `kMicTestAnimationDuration`. -/
def onLevelUpdateTimer (polled : Rat) (s : MicUiState) : MicUiState :=
  { micLevel := polled
    startedAnimations := s.startedAnimations
      ++ [{ fromLevel := s.micLevel, toLevel := polled,
            duration := kMicTestAnimationDuration }] }

/-- A run of timer firings, one per polled level. -/
def runLevelTimer (s : MicUiState) (polls : List Rat) : MicUiState :=
  polls.foldl (fun t p => onLevelUpdateTimer p t) s

/-- Along any run, the animations started are exactly the adjacent pairs
of the polled levels, each with the fixed duration. -/
lemma runLevelTimer_animations (polls : List Rat) (s : MicUiState) :
    (runLevelTimer s polls).startedAnimations
      = s.startedAnimations
        ++ List.zipWith
            (fun a b => (⟨a, b, kMicTestAnimationDuration⟩ : AnimationStart))
            (s.micLevel :: polls) polls := by
  induction polls generalizing s with
  | nil => simp [runLevelTimer]
  | cons p ps ih =>
      simp only [runLevelTimer, List.foldl_cons] at *
      rw [ih]
      simp [onLevelUpdateTimer, List.append_assoc]

/-- C5: the dialog's only recurring step is the single level-update timer
registered with period `kMicTestUpdateInterval`; each firing stores the
freshly polled level and starts one animation of duration
`kMicTestAnimationDuration` from the previously polled level to the new
one — so over a whole run from the initial state the started animations
are exactly the adjacent pairs of `0` followed by the polled levels. -/
theorem micLevelTimer_spec :
    boxRecurringTimerIntervals = [kMicTestUpdateInterval]
    ∧ (∀ (polled : Rat) (s : MicUiState),
        (onLevelUpdateTimer polled s).micLevel = polled
        ∧ (onLevelUpdateTimer polled s).startedAnimations
            = s.startedAnimations
              ++ [{ fromLevel := s.micLevel, toLevel := polled,
                    duration := kMicTestAnimationDuration }])
    ∧ (∀ polls : List Rat,
        (runLevelTimer initMicUiState polls).startedAnimations
          = List.zipWith
              (fun a b => (⟨a, b, kMicTestAnimationDuration⟩ : AnimationStart))
              (0 :: polls) polls) := by
  refine ⟨rfl, fun polled s => ⟨rfl, rfl⟩, fun polls => ?_⟩
  rw [runLevelTimer_animations]
  simp [initMicUiState]

/-- What the two device-picker callbacks update: the speakers (audio
output) name shown on the speakers row, the microphone (audio input) name
shown on the microphone row, and the device id of the mic tester. -/
structure DeviceUiState where
  outputName : String
  inputName : String
  micTesterDeviceId : String
  deriving DecidableEq, Repr

/-- The speakers picker callback: fires only `outputNameStream` with the
chosen name; the chosen id is ignored and the mic tester untouched. -/
def onSpeakersDeviceChosen (_deviceId deviceName : String)
    (s : DeviceUiState) : DeviceUiState :=
  { s with outputName := deviceName }

/-- The microphone picker callback: fires `inputNameStream` with the
chosen name and points the mic tester at the chosen device id. -/
def onMicrophoneDeviceChosen (deviceId deviceName : String)
    (s : DeviceUiState) : DeviceUiState :=
  { s with inputName := deviceName, micTesterDeviceId := deviceId }

/-- C6: choosing a microphone updates the displayed microphone name and
the mic tester's device id (and nothing of the speakers row); choosing a
speakers device updates only the displayed speakers name and leaves the
mic tester untouched. -/
theorem devicePicker_callbacks (deviceId deviceName : String)
    (s : DeviceUiState) :
    ((onMicrophoneDeviceChosen deviceId deviceName s).inputName = deviceName
      ∧ (onMicrophoneDeviceChosen deviceId deviceName s).micTesterDeviceId
          = deviceId
      ∧ (onMicrophoneDeviceChosen deviceId deviceName s).outputName
          = s.outputName)
    ∧ ((onSpeakersDeviceChosen deviceId deviceName s).outputName = deviceName
      ∧ (onSpeakersDeviceChosen deviceId deviceName s).inputName = s.inputName
      ∧ (onSpeakersDeviceChosen deviceId deviceName s).micTesterDeviceId
          = s.micTesterDeviceId) :=
  ⟨⟨rfl, rfl, rfl⟩, ⟨rfl, rfl, rfl⟩⟩

/-- The widgets `GroupCallSettingsBox` can add, in source order. -/
inductive Control where
  | muteJoinedCheckbox
  | speakersButton
  | microphoneButton
  | micLevelMeter
  | shareLinkButton
  | endCallButton
  | doneButton
  deriving DecidableEq, Repr

/-- The list of controls the dialog adds for a channel and call id: the
checkbox when manageable and changeable, the two device rows and the
level meter always, the share row when a link exists or can exist
(line 160), the end-call row when the user can manage the call
(line 194), and the Done button always. -/
def renderedControls (channel : ChannelData) (callId : Nat) : List Control :=
  (if (groupCallSettingsSetup channel callId).hasCheckbox = true
    then [Control.muteJoinedCheckbox] else [])
  ++ [Control.speakersButton, Control.microphoneButton, Control.micLevelMeter]
  ++ (if (lookupLink channel).isEmpty = false
        ∨ channel.canHaveInviteLink = true
      then [Control.shareLinkButton] else [])
  ++ (if channel.canManageCall = true then [Control.endCallButton] else [])
  ++ [Control.doneButton]

/-- C7 as literally stated fails on the code: a channel whose user cannot
manage the call and which can have no invite link gets neither the
invite-link sharing control nor the end-call button. -/
theorem renderedControls_counterexample :
    Control.shareLinkButton
      ∉ renderedControls
          { call := some { id := 5, input := 9, joinMuted := false,
                           canChangeJoinMuted := true },
            canManageCall := false, hasUsername := false, username := "",
            inviteLink := "", canHaveInviteLink := false, input := 7 } 5
    ∧ Control.endCallButton
      ∉ renderedControls
          { call := some { id := 5, input := 9, joinMuted := false,
                           canChangeJoinMuted := true },
            canManageCall := false, hasUsername := false, username := "",
            inviteLink := "", canHaveInviteLink := false, input := 7 } 5 := by
  refine ⟨by decide, by decide⟩

/-- C7 (amended): for every call the dialog renders the microphone level
meter and the device pickers for speakers and microphone; it renders the
invite-link sharing control exactly when a link can be looked up or the
channel can have an invite link, and the end-call button exactly when
the user can manage the call. -/
theorem renderedControls_spec (channel : ChannelData) (callId : Nat) :
    Control.micLevelMeter ∈ renderedControls channel callId
    ∧ Control.speakersButton ∈ renderedControls channel callId
    ∧ Control.microphoneButton ∈ renderedControls channel callId
    ∧ (Control.shareLinkButton ∈ renderedControls channel callId
        ↔ ((lookupLink channel).isEmpty = false
            ∨ channel.canHaveInviteLink = true))
    ∧ (Control.endCallButton ∈ renderedControls channel callId
        ↔ channel.canManageCall = true) := by
  simp only [renderedControls]
  split_ifs <;> simp_all

end CallsModel
